import Mathlib

/-!
Verification of the interpreter-discovery library.

The development shallowly embeds the two source files of the repository:
the introspection-output parser (the pure parsing
phase of `get_config_from_interpreter`), the script runner `run_python_script` (modelled as a pure
function of the outcome of spawning the child process), and the locator
functions `find_interpreters` / `find_interpreter_matching`.

Machine integers of the source (`u8`, `u32`) are modelled as `Nat` with the
explicit bounds 255 and 4294967295 enforced exactly where the integer
parsing of the source enforces them.  Errors, which the source carries as boxed
error values rendered from format strings, are modelled as the exact
`String` messages those format strings produce.
-/

/-- The two recognized interpreter implementations (`enum PythonImplementation`). -/
inductive PythonImplementation where
  | CPython : PythonImplementation
  | PyPy : PythonImplementation
deriving DecidableEq, Repr

/-- `struct PythonVersion { major: u8, minor: u8, implementation }`; the `u8`
fields are `Nat`s that the parser bounds by 255. -/
structure PythonVersion where
  major : Nat
  minor : Nat
  implementation : PythonImplementation
deriving DecidableEq, Repr

/-- `struct InterpreterConfig`.  The Rust `base_prefix` field is named
`basePfx` here; `executable` is a `PathBuf` in the source, carried as the
string the parser read. -/
structure InterpreterConfig where
  version : PythonVersion
  libdir : Option String
  shared : Bool
  ld_version : String
  basePfx : String
  executable : String
  calcsize_pointer : Nat
deriving DecidableEq, Repr

/-- `impl FromStr for PythonImplementation`: `"CPython"` and `"PyPy"` are the
only accepted tokens; anything else is the error `"Invalid interpreter: {s}"`. -/
def PythonImplementation.from_str (s : String) : Except String PythonImplementation :=
  if s = "CPython" then .ok PythonImplementation.CPython
  else if s = "PyPy" then .ok PythonImplementation.PyPy
  else .error ("Invalid interpreter: " ++ s)

/-- Numeric value of a list of decimal digit characters (most significant first). -/
def natOfDigits (l : List Char) : Nat :=
  l.foldl (fun a c => a * 10 + (c.toNat - 48)) 0

/-- Strip one leading `'+'` sign, as the Rust unsigned integer `FromStr` does. -/
def stripPlus : List Char → List Char
  | '+' :: t => t
  | t => t

/-- The Rust `str::parse` for an unsigned integer type whose maximum value is
`bound` (255 for `u8`, 4294967295 for `u32`): an optional `'+'` sign followed
by at least one ASCII digit, value at most `bound`.  The error strings are the
`Display` renderings of `ParseIntError`. -/
def rustParseUInt (bound : Nat) (s : String) : Except String Nat :=
  if s.data.isEmpty then .error "cannot parse integer from empty string"
  else if (stripPlus s.data).isEmpty then .error "invalid digit found in string"
  else if (stripPlus s.data).all (fun d => d.isDigit) then
    if natOfDigits (stripPlus s.data) ≤ bound then .ok (natOfDigits (stripPlus s.data))
    else .error "number too large to fit in target type"
  else .error "invalid digit found in string"

/-- Split a character list at every occurrence of `c` (Rust `str::split`). -/
def splitOnChar (c : Char) : List Char → List (List Char)
  | [] => [[]]
  | x :: xs =>
    let r := splitOnChar c xs
    if x = c then [] :: r
    else
      match r with
      | [] => [[x]]
      | h :: t => (x :: h) :: t

/-- Remove one trailing carriage return, used on the lines that were
terminated by a line feed. -/
def stripCR (l : List Char) : List Char :=
  if l.getLast? = some '\r' then l.dropLast else l

/-- The Rust `str::lines`: split at `'\n'`, strip a `'\r'` left at the end of a
line that was terminated by `'\n'`, and do not yield a final empty line for a
trailing terminator. -/
def rustLines (s : List Char) : List (List Char) :=
  let parts := splitOnChar '\n' s
  match parts.getLast? with
  | none => []
  | some last => parts.dropLast.map stripCR ++ (if last.isEmpty then [] else [last])

/-- Split a line at its first space: the result is the text before the first
space and everything after it; `none` when the line has no space
(`line.splitn(2, ' ')` yielding fewer than two items). -/
def splitFirstSpace : List Char → Option (List Char × List Char)
  | [] => none
  | c :: cs =>
    if c = ' ' then some ([], cs)
    else
      match splitFirstSpace cs with
      | none => none
      | some kv => some (c :: kv.1, kv.2)

/-- The per-line step of the map construction in `get_config_from_interpreter`:
a line with a space becomes a `(key, value)` pair, any other line is dropped
by the `filter_map`. -/
def splitKV (l : List Char) : Option (String × String) :=
  match splitFirstSpace l with
  | none => none
  | some kv => some (String.mk kv.1, String.mk kv.2)

/-- Collect the parsed lines into the key-value mapping. -/
def buildMapLines (ls : List (List Char)) : List (String × String) :=
  ls.filterMap splitKV

/-- The `HashMap` built by `get_config_from_interpreter` from the captured
output, represented as the association list of its insertions in order. -/
def buildMap (out : String) : List (String × String) :=
  buildMapLines (rustLines out.data)

/-- `HashMap::get`: since insertion overwrites, the value of the last inserted
pair with the given key. -/
def mapGet (m : List (String × String)) (k : String) : Option String :=
  (m.reverse.find? (fun p => decide (p.1 = k))).map Prod.snd

/-- The message produced by the `get!` macro when a required key is absent. -/
def missingFieldMsg (k out : String) : String :=
  "Failed to get " ++ k ++ " from the python interpreter. Output was:\n\n" ++ out

/-- The `get!` macro: look the key up in the map, failing with
`missingFieldMsg` when it is absent. -/
def getReq (m : List (String × String)) (out k : String) : Except String String :=
  match mapGet m k with
  | some v => .ok v
  | none => .error (missingFieldMsg k out)

/-- The construction of the `InterpreterConfig` record literal in
`get_config_from_interpreter`, with the field evaluation order of the source and
its `?` early returns made explicit. -/
def configFromMap (m : List (String × String)) (out : String) :
    Except String InterpreterConfig :=
  match getReq m out "version_major" with
  | .error e => .error e
  | .ok s1 =>
  match rustParseUInt 255 s1 with
  | .error e => .error e
  | .ok n1 =>
  match getReq m out "version_minor" with
  | .error e => .error e
  | .ok s2 =>
  match rustParseUInt 255 s2 with
  | .error e => .error e
  | .ok n2 =>
  match getReq m out "implementation" with
  | .error e => .error e
  | .ok s3 =>
  match PythonImplementation.from_str s3 with
  | .error e => .error e
  | .ok imp =>
  match getReq m out "shared" with
  | .error e => .error e
  | .ok s4 =>
  match getReq m out "ld_version" with
  | .error e => .error e
  | .ok s5 =>
  match getReq m out "base_prefix" with
  | .error e => .error e
  | .ok s6 =>
  match getReq m out "executable" with
  | .error e => .error e
  | .ok s7 =>
  match getReq m out "calcsize_pointer" with
  | .error e => .error e
  | .ok s8 =>
  match rustParseUInt 4294967295 s8 with
  | .error e => .error e
  | .ok n8 =>
    .ok { version := { major := n1, minor := n2, implementation := imp },
          libdir := mapGet m "libdir",
          shared := decide (s4 = "True"),
          ld_version := s5,
          basePfx := s6,
          executable := s7,
          calcsize_pointer := n8 }

/-- The whole pure parsing phase of `get_config_from_interpreter`: build the
map from the captured output, then build the record (error messages embed the
raw output). -/
def parseOutput (out : String) : Except String InterpreterConfig :=
  configFromMap (buildMap out) out

/-- The fixed introspection script passed to every interpreter (the raw string
literal in `get_config_from_interpreter`). -/
def scriptSrc : String :=
  "\nfrom __future__ import print_function\n\nimport json\nimport platform\nimport struct\nimport sys\nimport sysconfig\n\nPYPY = platform.python_implementation() == \"PyPy\"\n\ntry:\n    base_prefix = sys.base_prefix\nexcept AttributeError:\n    base_prefix = sys.exec_prefix\n\nlibdir = sysconfig.get_config_var(\x27LIBDIR\x27)\n\nprint(\"version_major\", sys.version_info[0])\nprint(\"version_minor\", sys.version_info[1])\nprint(\"implementation\", platform.python_implementation())\nif libdir is not None:\n    print(\"libdir\", libdir)\nprint(\"ld_version\", sysconfig.get_config_var(\x27LDVERSION\x27) or sysconfig.get_config_var(\x27py_version_short\x27))\nprint(\"base_prefix\", base_prefix)\nprint(\"shared\", PYPY or bool(sysconfig.get_config_var(\x27Py_ENABLE_SHARED\x27)))\nprint(\"executable\", sys.executable)\nprint(\"calcsize_pointer\", struct.calcsize(\"P\"))\n"

/-- Whether a byte is a UTF-8 continuation byte (`0x80..=0xBF`). -/
def utf8Cont (b : Nat) : Bool :=
  0x80 ≤ b && b ≤ 0xBF

/-- The admissible range of the second byte of a multi-byte UTF-8 sequence,
which depends on the first byte (excludes overlong encodings, surrogates and
values above U+10FFFF, exactly as the Rust UTF-8 validation does). -/
def utf8SecondOk (b0 b1 : Nat) : Bool :=
  if b0 = 0xE0 then 0xA0 ≤ b1 && b1 ≤ 0xBF
  else if b0 = 0xED then 0x80 ≤ b1 && b1 ≤ 0x9F
  else if b0 = 0xF0 then 0x90 ≤ b1 && b1 ≤ 0xBF
  else if b0 = 0xF4 then 0x80 ≤ b1 && b1 ≤ 0x8F
  else utf8Cont b1

/-- UTF-8 decoding of a byte sequence, Rust-style: either the decoded
characters, or `(valid_up_to, error_len)` describing the first invalid
sequence (`error_len = none` for an incomplete sequence at the end of the
input).  `i` is the byte index of the head of the remaining input. -/
def utf8DecodeAux (i : Nat) : List Nat → Except (Nat × Option Nat) (List Char)
  | [] => .ok []
  | b :: tl =>
    if b ≤ 0x7F then
      match utf8DecodeAux (i + 1) tl with
      | .ok cs => .ok (Char.ofNat b :: cs)
      | .error e => .error e
    else if b < 0xC2 then .error (i, some 1)
    else if b ≤ 0xDF then
      match tl with
      | [] => .error (i, none)
      | b1 :: tl1 =>
        if utf8Cont b1 then
          match utf8DecodeAux (i + 2) tl1 with
          | .ok cs => .ok (Char.ofNat ((b - 0xC0) * 0x40 + (b1 - 0x80)) :: cs)
          | .error e => .error e
        else .error (i, some 1)
    else if b ≤ 0xEF then
      match tl with
      | [] => .error (i, none)
      | b1 :: tl1 =>
        if utf8SecondOk b b1 then
          match tl1 with
          | [] => .error (i, none)
          | b2 :: tl2 =>
            if utf8Cont b2 then
              match utf8DecodeAux (i + 3) tl2 with
              | .ok cs =>
                .ok (Char.ofNat ((b - 0xE0) * 0x1000 + (b1 - 0x80) * 0x40 + (b2 - 0x80)) :: cs)
              | .error e => .error e
            else .error (i, some 2)
        else .error (i, some 1)
    else if b ≤ 0xF4 then
      match tl with
      | [] => .error (i, none)
      | b1 :: tl1 =>
        if utf8SecondOk b b1 then
          match tl1 with
          | [] => .error (i, none)
          | b2 :: tl2 =>
            if utf8Cont b2 then
              match tl2 with
              | [] => .error (i, none)
              | b3 :: tl3 =>
                if utf8Cont b3 then
                  match utf8DecodeAux (i + 4) tl3 with
                  | .ok cs =>
                    .ok (Char.ofNat ((b - 0xF0) * 0x40000 + (b1 - 0x80) * 0x1000 +
                          (b2 - 0x80) * 0x40 + (b3 - 0x80)) :: cs)
                  | .error e => .error e
                else .error (i, some 3)
            else .error (i, some 2)
        else .error (i, some 1)
    else .error (i, some 1)

/-- The `Display` rendering of the Rust `FromUtf8Error`. -/
def utf8ErrMsg : Nat × Option Nat → String
  | (vu, some n) =>
    "invalid utf-8 sequence of " ++ Nat.repr n ++ " bytes from index " ++ Nat.repr vu
  | (vu, none) => "incomplete utf-8 byte sequence from index " ++ Nat.repr vu

/-- `String::from_utf8` on the captured stdout bytes: the decoded string, or
the rendered encoding error. -/
def from_utf8 (bytes : List Nat) : Except String String :=
  match utf8DecodeAux 0 bytes with
  | .ok cs => .ok (String.mk cs)
  | .error e => .error (utf8ErrMsg e)

/-- The outcome of `Command::output()` for one spawn attempt: either an I/O
error (with the flag telling whether its kind was `NotFound`, and its
`Display` text), or a completed child process with its exit-status success
flag and captured stdout bytes. -/
inductive SpawnOutcome where
  | ioError (kindIsNotFound : Bool) (display : String) : SpawnOutcome
  | completed (success : Bool) (stdout : List Nat) : SpawnOutcome
deriving DecidableEq, Repr

/-- The `NotFound` message of `run_python_script`. -/
def notFoundMsg (interpreter : String) : String :=
  "Could not find any interpreter at " ++ interpreter ++
    ", are you sure you have Python installed on your PATH?"

/-- The launch-failure message of `run_python_script`. -/
def launchFailureMsg (interpreter err : String) : String :=
  "Failed to run the Python interpreter at " ++ interpreter ++ ": " ++ err

/-- The non-zero-exit message of `run_python_script`. -/
def scriptFailureMsg (script : String) : String :=
  "Python script failed: " ++ script

/-- `run_python_script`, as a pure function of the spawn outcome: classify the
outcome exactly as the `match` in the source does (I/O error split on `NotFound`,
then non-zero exit, then UTF-8 decoding of stdout). -/
def run_python_script (interpreter script : String) (outcome : SpawnOutcome) :
    Except String String :=
  match outcome with
  | .ioError kindIsNotFound d =>
    if kindIsNotFound then .error (notFoundMsg interpreter)
    else .error (launchFailureMsg interpreter d)
  | .completed success stdout =>
    if success then from_utf8 stdout
    else .error (scriptFailureMsg script)

/-- `get_config_from_interpreter`: run the fixed script through the runner
(the environment `env` supplies the spawn outcome of each interpreter), then parse
the captured output.  The `?` on the runner call is the explicit match. -/
def get_config_from_interpreter (env : String → SpawnOutcome) (interpreter : String) :
    Except String InterpreterConfig :=
  match run_python_script interpreter scriptSrc (env interpreter) with
  | .error e => .error e
  | .ok out => parseOutput out

/-- `Result::ok()`, used by `find_interpreters` to discard failures. -/
def resultToOption {ε α : Type} : Except ε α → Option α
  | .ok a => some a
  | .error _ => none

/-- The fixed ordered candidate list of `find_interpreters`. -/
def candidateNames : List String := ["python", "python3"]

/-- `find_interpreters`: try the candidates in order, keep the successes. -/
def find_interpreters (env : String → SpawnOutcome) : List InterpreterConfig :=
  candidateNames.filterMap (fun i => resultToOption (get_config_from_interpreter env i))

/-- `find_interpreter_matching`: first discovered configuration satisfying the
predicate. -/
def find_interpreter_matching (env : String → SpawnOutcome)
    (f : InterpreterConfig → Bool) : Option InterpreterConfig :=
  (find_interpreters env).find? f

/-- Operational model of the lazy iterator chain
`candidates.iter().filter_map(...).find(f)`: alongside the result, record the
list of candidates on which introspection was actually invoked, in order.  A
candidate satisfying the predicate stops the traversal, so later candidates
are never probed. -/
def findMatchingRun (env : String → SpawnOutcome) (f : InterpreterConfig → Bool) :
    List String → Option InterpreterConfig × List String
  | [] => (none, [])
  | i :: rest =>
    match resultToOption (get_config_from_interpreter env i) with
    | some c =>
      if f c then (some c, [i])
      else
        let r := findMatchingRun env f rest
        (r.1, i :: r.2)
    | none =>
      let r := findMatchingRun env f rest
      (r.1, i :: r.2)

/-! ## Helper lemmas -/

theorem getReq_ok {m : List (String × String)} {out k v : String}
    (h : mapGet m k = some v) : getReq m out k = .ok v := by
  simp [getReq, h]

theorem getReq_none {m : List (String × String)} {out k : String}
    (h : mapGet m k = none) : getReq m out k = .error (missingFieldMsg k out) := by
  simp [getReq, h]

theorem getReq_ok_inv {m : List (String × String)} {out k v : String}
    (h : getReq m out k = .ok v) : mapGet m k = some v := by
  unfold getReq at h
  cases hm : mapGet m k <;> rw [hm] at h
  · exact Except.noConfusion h
  · cases h; rfl

/-- Forward success characterization of `configFromMap`: when every required
key is present and every typed value parses, the record is returned, each
field holding exactly the corresponding raw (or parsed) value. -/
theorem configFromMap_ok {m : List (String × String)} {out : String}
    {s1 s2 s3 s4 s5 s6 s7 s8 : String} {n1 n2 n8 : Nat} {imp : PythonImplementation}
    (h1 : mapGet m "version_major" = some s1) (h1p : rustParseUInt 255 s1 = .ok n1)
    (h2 : mapGet m "version_minor" = some s2) (h2p : rustParseUInt 255 s2 = .ok n2)
    (h3 : mapGet m "implementation" = some s3)
    (h3p : PythonImplementation.from_str s3 = .ok imp)
    (h4 : mapGet m "shared" = some s4)
    (h5 : mapGet m "ld_version" = some s5)
    (h6 : mapGet m "base_prefix" = some s6)
    (h7 : mapGet m "executable" = some s7)
    (h8 : mapGet m "calcsize_pointer" = some s8)
    (h8p : rustParseUInt 4294967295 s8 = .ok n8) :
    configFromMap m out =
      .ok { version := { major := n1, minor := n2, implementation := imp },
            libdir := mapGet m "libdir",
            shared := decide (s4 = "True"),
            ld_version := s5,
            basePfx := s6,
            executable := s7,
            calcsize_pointer := n8 } := by
  unfold configFromMap
  simp only [getReq_ok h1, getReq_ok h2, getReq_ok h3, getReq_ok h4, getReq_ok h5,
    getReq_ok h6, getReq_ok h7, getReq_ok h8, h1p, h2p, h3p, h8p]

/-- Inversion of `configFromMap`: a returned record means every required key
was present, every typed value parsed, and the fields of the record are exactly the
read values. -/
theorem configFromMap_ok_inv {m : List (String × String)} {out : String}
    {c : InterpreterConfig} (h : configFromMap m out = .ok c) :
    ∃ s1 n1 s2 n2 s3 imp s4 s5 s6 s7 s8 n8,
      mapGet m "version_major" = some s1 ∧ rustParseUInt 255 s1 = .ok n1 ∧
      mapGet m "version_minor" = some s2 ∧ rustParseUInt 255 s2 = .ok n2 ∧
      mapGet m "implementation" = some s3 ∧ PythonImplementation.from_str s3 = .ok imp ∧
      mapGet m "shared" = some s4 ∧
      mapGet m "ld_version" = some s5 ∧
      mapGet m "base_prefix" = some s6 ∧
      mapGet m "executable" = some s7 ∧
      mapGet m "calcsize_pointer" = some s8 ∧ rustParseUInt 4294967295 s8 = .ok n8 ∧
      c = { version := { major := n1, minor := n2, implementation := imp },
            libdir := mapGet m "libdir",
            shared := decide (s4 = "True"),
            ld_version := s5,
            basePfx := s6,
            executable := s7,
            calcsize_pointer := n8 } := by
  unfold configFromMap at h
  split at h
  · exact Except.noConfusion h
  next s1 hg1 =>
  split at h
  · exact Except.noConfusion h
  next n1 hp1 =>
  split at h
  · exact Except.noConfusion h
  next s2 hg2 =>
  split at h
  · exact Except.noConfusion h
  next n2 hp2 =>
  split at h
  · exact Except.noConfusion h
  next s3 hg3 =>
  split at h
  · exact Except.noConfusion h
  next imp hp3 =>
  split at h
  · exact Except.noConfusion h
  next s4 hg4 =>
  split at h
  · exact Except.noConfusion h
  next s5 hg5 =>
  split at h
  · exact Except.noConfusion h
  next s6 hg6 =>
  split at h
  · exact Except.noConfusion h
  next s7 hg7 =>
  split at h
  · exact Except.noConfusion h
  next s8 hg8 =>
  split at h
  · exact Except.noConfusion h
  next n8 hp8 =>
  cases h
  exact ⟨s1, n1, s2, n2, s3, imp, s4, s5, s6, s7, s8, n8,
    getReq_ok_inv hg1, hp1, getReq_ok_inv hg2, hp2, getReq_ok_inv hg3, hp3,
    getReq_ok_inv hg4, getReq_ok_inv hg5, getReq_ok_inv hg6, getReq_ok_inv hg7,
    getReq_ok_inv hg8, hp8, rfl⟩

/-- A successful unsigned-integer parse is bounded and is exactly the decimal
value of the digit characters: nothing is truncated or wrapped. -/
theorem rustParseUInt_ok_inv {bound : Nat} {s : String} {n : Nat}
    (h : rustParseUInt bound s = .ok n) :
    n ≤ bound ∧ n = natOfDigits (stripPlus s.data) ∧
      (stripPlus s.data).isEmpty = false ∧
      (stripPlus s.data).all (fun d => d.isDigit) = true := by
  unfold rustParseUInt at h
  split at h
  · exact Except.noConfusion h
  split at h
  · exact Except.noConfusion h
  split at h
  · split at h
    · cases h
      refine ⟨by assumption, rfl, ?_, by assumption⟩
      simp_all
    · exact Except.noConfusion h
  · exact Except.noConfusion h

/-- An all-digits value above the bound is rejected with the overflow error. -/
theorem rustParseUInt_too_large {bound : Nat} {s : String}
    (hne : (stripPlus s.data).isEmpty = false)
    (hd : (stripPlus s.data).all (fun d => d.isDigit) = true)
    (hb : bound < natOfDigits (stripPlus s.data)) :
    rustParseUInt bound s = .error "number too large to fit in target type" := by
  have hsd : s.data.isEmpty = false := by
    cases hs : s.data with
    | nil => rw [hs] at hne; simp [stripPlus] at hne
    | cons c t => rfl
  unfold rustParseUInt
  rw [hsd, hne, hd]
  simp [Nat.not_le_of_lt hb]

/-- A value starting with a minus sign is rejected as an invalid digit
(unsigned parsing accepts no sign but `'+'`). -/
theorem rustParseUInt_neg {bound : Nat} {s : String} {rest : List Char}
    (h : s.data = '-' :: rest) :
    rustParseUInt bound s = .error "invalid digit found in string" := by
  unfold rustParseUInt
  rw [h]
  simp [stripPlus, List.all_cons, Char.isDigit]

/-- A line without a space character is dropped by the key-value split. -/
theorem splitFirstSpace_no_space {l : List Char} (h : ' ' ∉ l) :
    splitFirstSpace l = none := by
  induction l with
  | nil => rfl
  | cons c cs ih =>
    have hc : ¬(c = ' ') := fun e => h (by rw [e]; exact List.mem_cons_self _ _)
    have hcs : ' ' ∉ cs := fun m => h (List.mem_cons_of_mem _ m)
    unfold splitFirstSpace
    rw [if_neg hc, ih hcs]

/-- The key-value split of a line yields the text before the first space and
the whole remainder after it: the key contains no space and the line is the
key, one space, then the value. -/
theorem splitFirstSpace_some {l k v : List Char}
    (h : splitFirstSpace l = some (k, v)) : l = k ++ ' ' :: v ∧ ' ' ∉ k := by
  induction l generalizing k v with
  | nil => exact Option.noConfusion h
  | cons c cs ih =>
    unfold splitFirstSpace at h
    by_cases hc : c = ' '
    · rw [if_pos hc] at h
      cases h
      subst hc
      exact ⟨rfl, List.not_mem_nil _⟩
    · rw [if_neg hc] at h
      cases hs : splitFirstSpace cs with
      | none => rw [hs] at h; exact Option.noConfusion h
      | some kv =>
        rw [hs] at h
        cases h
        obtain ⟨h1, h2⟩ := ih hs
        refine ⟨by rw [List.cons_append, ← h1], ?_⟩
        intro hm
        rcases List.mem_cons.mp hm with he | hm2
        · exact hc he.symm
        · exact h2 hm2

/-- A line whose split is `none` contributes nothing to the mapping, wherever
it sits among the other lines. -/
theorem buildMapLines_skip {l : List Char} (pre post : List (List Char))
    (h : splitKV l = none) :
    buildMapLines (pre ++ l :: post) = buildMapLines (pre ++ post) := by
  simp [buildMapLines, List.filterMap_append, List.filterMap_cons, h]

/-- First component of the instrumented traversal agrees with the plain
`find?` over the discovered configurations. -/
theorem findMatchingRun_fst (env : String → SpawnOutcome)
    (f : InterpreterConfig → Bool) (l : List String) :
    (findMatchingRun env f l).1 =
      (l.filterMap (fun i => resultToOption (get_config_from_interpreter env i))).find? f := by
  induction l with
  | nil => rfl
  | cons i rest ih =>
    unfold findMatchingRun
    cases hg : resultToOption (get_config_from_interpreter env i) with
    | none => simp [List.filterMap_cons, hg, ih]
    | some c =>
      cases hf : f c with
      | true => simp [List.filterMap_cons, hg, hf, List.find?]
      | false => simp [List.filterMap_cons, hg, hf, ih, List.find?]

/-- The first character of the not-found message. -/
theorem notFoundMsg_head (p : String) : (notFoundMsg p).data.head? = some 'C' := by
  cases p; rfl

/-- The first character of the launch-failure message. -/
theorem launchFailureMsg_head (p e : String) :
    (launchFailureMsg p e).data.head? = some 'F' := by
  cases p; rfl

/-- The first character of the script-failure message. -/
theorem scriptFailureMsg_head (s : String) :
    (scriptFailureMsg s).data.head? = some 'P' := by
  cases s; rfl

/-- The first character of either encoding-failure message. -/
theorem utf8ErrMsg_head (e : Nat × Option Nat) :
    (utf8ErrMsg e).data.head? = some 'i' := by
  obtain ⟨vu, el⟩ := e
  cases el <;> rfl

/-- The eight required keys, in the order the record construction reads them. -/
def reqKeys : List String :=
  ["version_major", "version_minor", "implementation", "shared",
   "ld_version", "base_prefix", "executable", "calcsize_pointer"]

/-- Every required key that is present in the map carries a value that parses
into its target type (the keys read as plain strings always do). -/
def wellFormedPresent (m : List (String × String)) : Prop :=
  (∀ s, mapGet m "version_major" = some s → ∃ n, rustParseUInt 255 s = .ok n) ∧
  (∀ s, mapGet m "version_minor" = some s → ∃ n, rustParseUInt 255 s = .ok n) ∧
  (∀ s, mapGet m "implementation" = some s →
    ∃ imp, PythonImplementation.from_str s = .ok imp) ∧
  (∀ s, mapGet m "calcsize_pointer" = some s → ∃ n, rustParseUInt 4294967295 s = .ok n)

/-- The missing-field message contains the key it names and the full captured
output. -/
theorem missingFieldMsg_names (k out : String) :
    k.data <:+: (missingFieldMsg k out).data ∧ out.data <:+: (missingFieldMsg k out).data := by
  constructor
  · exact ⟨"Failed to get ".data,
      " from the python interpreter. Output was:\n\n".data ++ out.data,
      by simp [missingFieldMsg, String.data_append, List.append_assoc]⟩
  · exact ⟨"Failed to get ".data ++ k.data ++
        " from the python interpreter. Output was:\n\n".data, [],
      by simp [missingFieldMsg, String.data_append, List.append_assoc]⟩

/-- When every present required value is well-formed and some required key is
missing, the record construction stops at a missing required key and reports
exactly its missing-field message. -/
theorem configFromMap_missing {m : List (String × String)} {out : String}
    (wf : wellFormedPresent m) (hmiss : ∃ k, k ∈ reqKeys ∧ mapGet m k = none) :
    ∃ k, k ∈ reqKeys ∧ mapGet m k = none ∧
      configFromMap m out = .error (missingFieldMsg k out) := by
  cases h1 : mapGet m "version_major" with
  | none =>
    exact ⟨"version_major", by simp [reqKeys], h1,
      by unfold configFromMap; rw [getReq_none h1]⟩
  | some s1 =>
    obtain ⟨n1, hp1⟩ := wf.1 s1 h1
    cases h2 : mapGet m "version_minor" with
    | none =>
      exact ⟨"version_minor", by simp [reqKeys], h2,
        by unfold configFromMap; simp only [getReq_ok h1, hp1, getReq_none h2]⟩
    | some s2 =>
      obtain ⟨n2, hp2⟩ := wf.2.1 s2 h2
      cases h3 : mapGet m "implementation" with
      | none =>
        exact ⟨"implementation", by simp [reqKeys], h3,
          by unfold configFromMap
             simp only [getReq_ok h1, hp1, getReq_ok h2, hp2, getReq_none h3]⟩
      | some s3 =>
        obtain ⟨imp, hp3⟩ := wf.2.2.1 s3 h3
        cases h4 : mapGet m "shared" with
        | none =>
          exact ⟨"shared", by simp [reqKeys], h4,
            by unfold configFromMap
               simp only [getReq_ok h1, hp1, getReq_ok h2, hp2, getReq_ok h3, hp3,
                 getReq_none h4]⟩
        | some s4 =>
          cases h5 : mapGet m "ld_version" with
          | none =>
            exact ⟨"ld_version", by simp [reqKeys], h5,
              by unfold configFromMap
                 simp only [getReq_ok h1, hp1, getReq_ok h2, hp2, getReq_ok h3, hp3,
                   getReq_ok h4, getReq_none h5]⟩
          | some s5 =>
            cases h6 : mapGet m "base_prefix" with
            | none =>
              exact ⟨"base_prefix", by simp [reqKeys], h6,
                by unfold configFromMap
                   simp only [getReq_ok h1, hp1, getReq_ok h2, hp2, getReq_ok h3, hp3,
                     getReq_ok h4, getReq_ok h5, getReq_none h6]⟩
            | some s6 =>
              cases h7 : mapGet m "executable" with
              | none =>
                exact ⟨"executable", by simp [reqKeys], h7,
                  by unfold configFromMap
                     simp only [getReq_ok h1, hp1, getReq_ok h2, hp2, getReq_ok h3, hp3,
                       getReq_ok h4, getReq_ok h5, getReq_ok h6, getReq_none h7]⟩
              | some s7 =>
                cases h8 : mapGet m "calcsize_pointer" with
                | none =>
                  exact ⟨"calcsize_pointer", by simp [reqKeys], h8,
                    by unfold configFromMap
                       simp only [getReq_ok h1, hp1, getReq_ok h2, hp2, getReq_ok h3, hp3,
                         getReq_ok h4, getReq_ok h5, getReq_ok h6, getReq_ok h7,
                         getReq_none h8]⟩
                | some s8 =>
                  exfalso
                  obtain ⟨k, hk, hnone⟩ := hmiss
                  simp only [reqKeys, List.mem_cons, List.not_mem_nil, or_false] at hk
                  rcases hk with rfl | rfl | rfl | rfl | rfl | rfl | rfl | rfl
                  · rw [h1] at hnone; exact Option.noConfusion hnone
                  · rw [h2] at hnone; exact Option.noConfusion hnone
                  · rw [h3] at hnone; exact Option.noConfusion hnone
                  · rw [h4] at hnone; exact Option.noConfusion hnone
                  · rw [h5] at hnone; exact Option.noConfusion hnone
                  · rw [h6] at hnone; exact Option.noConfusion hnone
                  · rw [h7] at hnone; exact Option.noConfusion hnone
                  · rw [h8] at hnone; exact Option.noConfusion hnone

/-- A well-formed introspection output, as in the end-to-end scenario of the spec. -/
def sampleOut : String :=
  "version_major 3\nversion_minor 11\nimplementation CPython\nld_version 3.11\nbase_prefix /usr\nshared True\nexecutable /usr/bin/stub\ncalcsize_pointer 8\n"

/-- The record `sampleOut` parses to. -/
def sampleConfig : InterpreterConfig :=
  { version := { major := 3, minor := 11, implementation := PythonImplementation.CPython },
    libdir := none,
    shared := true,
    ld_version := "3.11",
    basePfx := "/usr",
    executable := "/usr/bin/stub",
    calcsize_pointer := 8 }

/-- Claim C1: for every introspection output containing all eight required
keys with well-formed values, parsing succeeds and every field of the
resulting record is exactly the corresponding value of the input text — the
version numbers and pointer size as parsed from their raw values, the
implementation as decoded from its token, the string fields verbatim, the
shared flag as the comparison of its raw value with "True", and `libdir`
exactly the optional raw value of the `libdir` key (`none` when absent). -/
theorem C1_parse_roundtrip (out : String) (s1 s2 s3 s4 s5 s6 s7 s8 : String)
    (n1 n2 n8 : Nat) (imp : PythonImplementation)
    (h1 : mapGet (buildMap out) "version_major" = some s1)
    (h1p : rustParseUInt 255 s1 = .ok n1)
    (h2 : mapGet (buildMap out) "version_minor" = some s2)
    (h2p : rustParseUInt 255 s2 = .ok n2)
    (h3 : mapGet (buildMap out) "implementation" = some s3)
    (h3p : PythonImplementation.from_str s3 = .ok imp)
    (h4 : mapGet (buildMap out) "shared" = some s4)
    (h5 : mapGet (buildMap out) "ld_version" = some s5)
    (h6 : mapGet (buildMap out) "base_prefix" = some s6)
    (h7 : mapGet (buildMap out) "executable" = some s7)
    (h8 : mapGet (buildMap out) "calcsize_pointer" = some s8)
    (h8p : rustParseUInt 4294967295 s8 = .ok n8) :
    parseOutput out = .ok
      { version := { major := n1, minor := n2, implementation := imp },
        libdir := mapGet (buildMap out) "libdir",
        shared := decide (s4 = "True"),
        ld_version := s5,
        basePfx := s6,
        executable := s7,
        calcsize_pointer := n8 } :=
  configFromMap_ok h1 h1p h2 h2p h3 h3p h4 h5 h6 h7 h8 h8p

/-- Witness for C1: the end-to-end sample output of the spec parses to the expected
record, with `libdir = none`. -/
theorem C1_parse_roundtrip_witness : parseOutput sampleOut = .ok sampleConfig := by
  have h := C1_parse_roundtrip sampleOut "3" "11" "CPython" "True" "3.11" "/usr"
    "/usr/bin/stub" "8" 3 11 8 PythonImplementation.CPython
    rfl rfl rfl rfl rfl rfl rfl rfl rfl rfl rfl rfl
  exact h

/-- An output missing seven required keys whose present key has a malformed
value. -/
def cexOut : String := "version_major x\n"

/-- Claim C3 counterexample: `cexOut` is missing required keys (for example
`version_minor`), yet the parse error is the integer-parse message for the
malformed `version_major` value: it is not the missing-field message of any
required key and it does not include the captured output. -/
theorem C3_counterexample :
    mapGet (buildMap cexOut) "version_minor" = none ∧
    parseOutput cexOut = .error "invalid digit found in string" ∧
    "invalid digit found in string" ≠ missingFieldMsg "version_major" cexOut ∧
    "invalid digit found in string" ≠ missingFieldMsg "version_minor" cexOut ∧
    "invalid digit found in string" ≠ missingFieldMsg "implementation" cexOut ∧
    "invalid digit found in string" ≠ missingFieldMsg "shared" cexOut ∧
    "invalid digit found in string" ≠ missingFieldMsg "ld_version" cexOut ∧
    "invalid digit found in string" ≠ missingFieldMsg "base_prefix" cexOut ∧
    "invalid digit found in string" ≠ missingFieldMsg "executable" cexOut ∧
    "invalid digit found in string" ≠ missingFieldMsg "calcsize_pointer" cexOut ∧
    ¬ (cexOut.data <:+: ("invalid digit found in string" : String).data) := by
  refine ⟨rfl, rfl, ?_, ?_, ?_, ?_, ?_, ?_, ?_, ?_, ?_⟩ <;> decide

/-- Claim C3 (amended): for every introspection output missing at least one
required key, parsing fails and no record is produced; when moreover every
required key that is present has a well-formed value, the error is the
missing-field message of a missing required key, which names that key and
includes the full captured output. -/
theorem C3_missing_key (out : String)
    (hmiss : ∃ k, k ∈ reqKeys ∧ mapGet (buildMap out) k = none) :
    (∀ c, parseOutput out ≠ .ok c) ∧
    (wellFormedPresent (buildMap out) →
      ∃ k, k ∈ reqKeys ∧ mapGet (buildMap out) k = none ∧
        parseOutput out = .error (missingFieldMsg k out) ∧
        k.data <:+: (missingFieldMsg k out).data ∧
        out.data <:+: (missingFieldMsg k out).data) := by
  constructor
  · intro c hok
    obtain ⟨s1, n1, s2, n2, s3, imp, s4, s5, s6, s7, s8, n8,
      g1, _, g2, _, g3, _, g4, g5, g6, g7, g8, _, _⟩ := configFromMap_ok_inv hok
    obtain ⟨k, hk, hnone⟩ := hmiss
    simp only [reqKeys, List.mem_cons, List.not_mem_nil, or_false] at hk
    rcases hk with rfl | rfl | rfl | rfl | rfl | rfl | rfl | rfl
    · rw [g1] at hnone; exact Option.noConfusion hnone
    · rw [g2] at hnone; exact Option.noConfusion hnone
    · rw [g3] at hnone; exact Option.noConfusion hnone
    · rw [g4] at hnone; exact Option.noConfusion hnone
    · rw [g5] at hnone; exact Option.noConfusion hnone
    · rw [g6] at hnone; exact Option.noConfusion hnone
    · rw [g7] at hnone; exact Option.noConfusion hnone
    · rw [g8] at hnone; exact Option.noConfusion hnone
  · intro wf
    obtain ⟨k, hk, hnone, herr⟩ := configFromMap_missing wf hmiss
    exact ⟨k, hk, hnone, herr, (missingFieldMsg_names k out).1,
      (missingFieldMsg_names k out).2⟩

/-- Witness for the amended C3: an output holding only a well-formed
`version_major` line fails to parse, and in fact fails with the missing-field
message of the first absent key. -/
theorem C3_missing_key_witness :
    parseOutput "version_major 3" ≠ .ok sampleConfig ∧
    parseOutput "version_major 3" = .error (missingFieldMsg "version_minor" "version_major 3") := by
  have h := C3_missing_key "version_major 3"
    ⟨"version_minor", by simp [reqKeys], rfl⟩
  exact ⟨h.1 sampleConfig, rfl⟩

/-- Claim C4: in every successfully parsed record the shared flag is true
exactly when the raw `shared` value is the token "True"; and any raw `shared`
value whatsoever (given the other required fields are present and well-formed)
still parses successfully, with the flag equal to the comparison with "True"
— a non-"True" value is mapped to false, not to an error. -/
theorem C4_shared_flag :
    (∀ m out c, configFromMap m out = .ok c →
      (c.shared = true ↔ mapGet m "shared" = some "True")) ∧
    (∀ m out (s1 s2 s3 v s5 s6 s7 s8 : String) (n1 n2 n8 : Nat)
        (imp : PythonImplementation),
      mapGet m "version_major" = some s1 → rustParseUInt 255 s1 = .ok n1 →
      mapGet m "version_minor" = some s2 → rustParseUInt 255 s2 = .ok n2 →
      mapGet m "implementation" = some s3 → PythonImplementation.from_str s3 = .ok imp →
      mapGet m "shared" = some v →
      mapGet m "ld_version" = some s5 → mapGet m "base_prefix" = some s6 →
      mapGet m "executable" = some s7 →
      mapGet m "calcsize_pointer" = some s8 → rustParseUInt 4294967295 s8 = .ok n8 →
      ∃ c, configFromMap m out = .ok c ∧ c.shared = decide (v = "True")) := by
  constructor
  · intro m out c hok
    obtain ⟨s1, n1, s2, n2, s3, imp, s4, s5, s6, s7, s8, n8,
      _, _, _, _, _, _, g4, _, _, _, _, _, hc⟩ := configFromMap_ok_inv hok
    subst hc
    simp only [g4, Option.some.injEq, decide_eq_true_eq]
  · intro m out s1 s2 s3 v s5 s6 s7 s8 n1 n2 n8 imp h1 h1p h2 h2p h3 h3p h4 h5 h6 h7 h8 h8p
    exact ⟨_, configFromMap_ok h1 h1p h2 h2p h3 h3p h4 h5 h6 h7 h8 h8p, rfl⟩

/-- An output identical to `sampleOut` except that the `shared` value is the
non-"True" token "yes". -/
def sampleOutYes : String :=
  "version_major 3\nversion_minor 11\nimplementation CPython\nld_version 3.11\nbase_prefix /usr\nshared yes\nexecutable /usr/bin/stub\ncalcsize_pointer 8\n"

/-- Witness for C4: with raw `shared` value "yes" the parse still succeeds and
the flag is false (it is true only for the exact token "True"). -/
theorem C4_shared_flag_witness :
    ({ sampleConfig with shared := false } : InterpreterConfig).shared = true ↔
      mapGet (buildMap sampleOutYes) "shared" = some "True" := by
  exact (C4_shared_flag).1 (buildMap sampleOutYes) sampleOutYes
    { sampleConfig with shared := false } rfl

/-- Claim C5: implementation parsing accepts exactly the tokens "CPython" and
"PyPy", mapping them to the two variants; every other token is a hard parse
error, and an output whose `implementation` value is any other token never
produces a record. -/
theorem C5_implementation_closed :
    PythonImplementation.from_str "CPython" = .ok PythonImplementation.CPython ∧
    PythonImplementation.from_str "PyPy" = .ok PythonImplementation.PyPy ∧
    (∀ s, s ≠ "CPython" → s ≠ "PyPy" →
      PythonImplementation.from_str s = .error ("Invalid interpreter: " ++ s)) ∧
    (∀ m out s c, mapGet m "implementation" = some s → s ≠ "CPython" → s ≠ "PyPy" →
      configFromMap m out ≠ .ok c) := by
  refine ⟨rfl, rfl, ?_, ?_⟩
  · intro s hn1 hn2
    simp [PythonImplementation.from_str, hn1, hn2]
  · intro m out s c h hn1 hn2 hok
    obtain ⟨s1, n1, s2, n2, s3, imp, s4, s5, s6, s7, s8, n8,
      _, _, _, _, g3, p3, _, _, _, _, _, _, _⟩ := configFromMap_ok_inv hok
    rw [h] at g3
    injection g3 with he
    subst he
    simp [PythonImplementation.from_str, hn1, hn2] at p3

/-- Witness for C5: the token "Jython" is rejected with the invalid-interpreter
error. -/
theorem C5_implementation_closed_witness :
    PythonImplementation.from_str "Jython" = .error ("Invalid interpreter: " ++ "Jython") :=
  C5_implementation_closed.2.2.1 "Jython" (by decide) (by decide)

/-- Claim C9: parsed version numbers are always at most 255 (one byte); a
successful unsigned parse is bounded and exact (never truncated or wrapped);
an all-digits raw value above the bound fails with the overflow error; a raw
value with a leading minus sign fails with the invalid-digit error; and an
output whose `version_major` or `version_minor` raw value does not parse as a
`u8` never produces a record. -/
theorem C9_version_byte_bounded :
    (∀ m out c, configFromMap m out = .ok c →
      c.version.major ≤ 255 ∧ c.version.minor ≤ 255) ∧
    (∀ bound s n, rustParseUInt bound s = .ok n →
      n ≤ bound ∧ n = natOfDigits (stripPlus s.data)) ∧
    (∀ s, (stripPlus s.data).isEmpty = false →
      (stripPlus s.data).all (fun d => d.isDigit) = true →
      255 < natOfDigits (stripPlus s.data) →
      rustParseUInt 255 s = .error "number too large to fit in target type") ∧
    (∀ s rest, s.data = '-' :: rest →
      rustParseUInt 255 s = .error "invalid digit found in string") ∧
    (∀ m out s c, mapGet m "version_major" = some s →
      (∀ n, rustParseUInt 255 s ≠ .ok n) → configFromMap m out ≠ .ok c) ∧
    (∀ m out s c, mapGet m "version_minor" = some s →
      (∀ n, rustParseUInt 255 s ≠ .ok n) → configFromMap m out ≠ .ok c) := by
  refine ⟨?_, ?_, ?_, ?_, ?_, ?_⟩
  · intro m out c hok
    obtain ⟨s1, n1, s2, n2, s3, imp, s4, s5, s6, s7, s8, n8,
      _, p1, _, p2, _, _, _, _, _, _, _, _, hc⟩ := configFromMap_ok_inv hok
    subst hc
    exact ⟨(rustParseUInt_ok_inv p1).1, (rustParseUInt_ok_inv p2).1⟩
  · intro bound s n h
    exact ⟨(rustParseUInt_ok_inv h).1, (rustParseUInt_ok_inv h).2.1⟩
  · intro s hne hd hb
    exact rustParseUInt_too_large hne hd hb
  · intro s rest h
    exact rustParseUInt_neg h
  · intro m out s c h hfail hok
    obtain ⟨s1, n1, s2, n2, s3, imp, s4, s5, s6, s7, s8, n8,
      g1, p1, _, _, _, _, _, _, _, _, _, _, _⟩ := configFromMap_ok_inv hok
    rw [h] at g1
    injection g1 with he
    subst he
    exact hfail n1 p1
  · intro m out s c h hfail hok
    obtain ⟨s1, n1, s2, n2, s3, imp, s4, s5, s6, s7, s8, n8,
      _, _, g2, p2, _, _, _, _, _, _, _, _, _⟩ := configFromMap_ok_inv hok
    rw [h] at g2
    injection g2 with he
    subst he
    exact hfail n2 p2

/-- Witness for C9: the out-of-range value "256" fails with the overflow
error and the negative value "-1" fails with the invalid-digit error. -/
theorem C9_version_byte_bounded_witness :
    rustParseUInt 255 "256" = .error "number too large to fit in target type" ∧
    rustParseUInt 255 "-1" = .error "invalid digit found in string" :=
  ⟨C9_version_byte_bounded.2.2.1 "256" rfl rfl (by decide),
   C9_version_byte_bounded.2.2.2.1 "-1" ['1'] rfl⟩

/-- Claim C10: a line without a space character (in particular an empty line)
is silently skipped by the map construction — it yields no key-value pair and
its presence never changes the mapping — while a line with at least one space
splits into the text before its first space (the key, which itself contains no
space) and the entire remainder after that space (the value). -/
theorem C10_spaceless_lines_skipped :
    (∀ l : List Char, ' ' ∉ l → splitKV l = none) ∧
    splitKV [] = none ∧
    (∀ (l : List Char) (k v : String), splitKV l = some (k, v) →
      l = k.data ++ ' ' :: v.data ∧ ' ' ∉ k.data) ∧
    (∀ (pre post : List (List Char)) (l : List Char), ' ' ∉ l →
      buildMapLines (pre ++ l :: post) = buildMapLines (pre ++ post)) := by
  have hnone : ∀ l : List Char, ' ' ∉ l → splitKV l = none := by
    intro l h
    unfold splitKV
    rw [splitFirstSpace_no_space h]
  refine ⟨hnone, rfl, ?_, ?_⟩
  · intro l k v h
    unfold splitKV at h
    cases hs : splitFirstSpace l with
    | none => rw [hs] at h; exact Option.noConfusion h
    | some kv =>
      rw [hs] at h
      injection h with he
      have h1 : String.mk kv.1 = k := congrArg Prod.fst he
      have h2 : String.mk kv.2 = v := congrArg Prod.snd he
      subst h1
      subst h2
      exact splitFirstSpace_some hs
  · intro pre post l h
    exact buildMapLines_skip pre post (hnone l h)

/-- Witness for C10: a spaceless line yields no pair; a line with spaces
splits at the first space, the remainder keeping its further spaces. -/
theorem C10_spaceless_lines_skipped_witness :
    splitKV "calcsize_pointer".data = none ∧
    ("key a b".data = "key".data ++ ' ' :: "a b".data ∧ ' ' ∉ "key".data) :=
  ⟨C10_spaceless_lines_skipped.1 "calcsize_pointer".data (by decide),
   C10_spaceless_lines_skipped.2.2.1 "key a b".data "key" "a b" rfl⟩

/-- Claim C2: the four runner failure conditions produce four distinct error
outcomes.  A spawn error of kind `NotFound` yields the not-found message,
which contains the attempted interpreter name and the installation hint; any
other spawn error yields the launch-failure message; a non-zero exit yields
the script-failure message; invalid UTF-8 in the captured output yields the
encoding message.  The four message families are pairwise distinct for all
argument values, so the caller can tell the conditions apart. -/
theorem C2_distinct_failures :
    (∀ interp script d, run_python_script interp script (.ioError true d) =
      .error (notFoundMsg interp)) ∧
    (∀ interp : String, interp.data <:+: (notFoundMsg interp).data ∧
      (", are you sure you have Python installed on your PATH?" : String).data <:+:
        (notFoundMsg interp).data) ∧
    (∀ interp script d, run_python_script interp script (.ioError false d) =
      .error (launchFailureMsg interp d)) ∧
    (∀ interp script st, run_python_script interp script (.completed false st) =
      .error (scriptFailureMsg script)) ∧
    (∀ interp script st e, utf8DecodeAux 0 st = .error e →
      run_python_script interp script (.completed true st) = .error (utf8ErrMsg e)) ∧
    (∀ p1 p2 d s, notFoundMsg p1 ≠ launchFailureMsg p2 d ∧
      notFoundMsg p1 ≠ scriptFailureMsg s ∧
      launchFailureMsg p2 d ≠ scriptFailureMsg s) ∧
    (∀ p d s e, notFoundMsg p ≠ utf8ErrMsg e ∧
      launchFailureMsg p d ≠ utf8ErrMsg e ∧
      scriptFailureMsg s ≠ utf8ErrMsg e) := by
  refine ⟨fun _ _ _ => rfl, ?_, fun _ _ _ => rfl, fun _ _ _ => rfl, ?_, ?_, ?_⟩
  · intro interp
    constructor
    · exact ⟨"Could not find any interpreter at ".data,
        ", are you sure you have Python installed on your PATH?".data,
        by simp [notFoundMsg, String.data_append, List.append_assoc]⟩
    · exact ⟨"Could not find any interpreter at ".data ++ interp.data, [],
        by simp [notFoundMsg, String.data_append, List.append_assoc]⟩
  · intro interp script st e h
    simp [run_python_script, from_utf8, h]
  · intro p1 p2 d s
    refine ⟨?_, ?_, ?_⟩ <;> intro h <;>
      have h2 := congrArg (fun t : String => t.data.head?) h
    · simp only [notFoundMsg_head, launchFailureMsg_head] at h2
      exact absurd h2 (by decide)
    · simp only [notFoundMsg_head, scriptFailureMsg_head] at h2
      exact absurd h2 (by decide)
    · simp only [launchFailureMsg_head, scriptFailureMsg_head] at h2
      exact absurd h2 (by decide)
  · intro p d s e
    refine ⟨?_, ?_, ?_⟩ <;> intro h <;>
      have h2 := congrArg (fun t : String => t.data.head?) h
    · simp only [notFoundMsg_head, utf8ErrMsg_head] at h2
      exact absurd h2 (by decide)
    · simp only [launchFailureMsg_head, utf8ErrMsg_head] at h2
      exact absurd h2 (by decide)
    · simp only [scriptFailureMsg_head, utf8ErrMsg_head] at h2
      exact absurd h2 (by decide)

/-- Witness for C2: concrete instances of the four classifications and of the
distinctness of the message families. -/
theorem C2_distinct_failures_witness :
    run_python_script "pythonX" scriptSrc (.ioError true "boom") =
      .error (notFoundMsg "pythonX") ∧
    run_python_script "pythonX" scriptSrc (.ioError false "boom") =
      .error (launchFailureMsg "pythonX" "boom") ∧
    run_python_script "pythonX" scriptSrc (.completed false [65]) =
      .error (scriptFailureMsg scriptSrc) ∧
    run_python_script "pythonX" scriptSrc (.completed true [255]) =
      .error (utf8ErrMsg (0, some 1)) ∧
    notFoundMsg "pythonX" ≠ scriptFailureMsg scriptSrc := by
  have h := C2_distinct_failures
  exact ⟨h.1 "pythonX" scriptSrc "boom",
    h.2.2.1 "pythonX" scriptSrc "boom",
    h.2.2.2.1 "pythonX" scriptSrc [65],
    h.2.2.2.2.1 "pythonX" scriptSrc [255] (0, some 1) rfl,
    (h.2.2.2.2.2.1 "pythonX" "pythonX" "boom" scriptSrc).2.1⟩

/-- Claim C8: whenever the child process completes with a non-zero status,
the runner fails with the script-failure message (which contains the script
body), regardless of whatever bytes the process wrote on standard output, and
`get_config_from_interpreter` produces no record from such an outcome. -/
theorem C8_nonzero_exit_fails :
    (∀ interp script (st : List Nat),
      run_python_script interp script (.completed false st) =
        .error (scriptFailureMsg script) ∧
      script.data <:+: (scriptFailureMsg script).data) ∧
    (∀ (env : String → SpawnOutcome) interp (st : List Nat),
      env interp = .completed false st →
      get_config_from_interpreter env interp = .error (scriptFailureMsg scriptSrc) ∧
      ∀ c, get_config_from_interpreter env interp ≠ .ok c) := by
  constructor
  · intro interp script st
    refine ⟨rfl, ⟨"Python script failed: ".data, [], ?_⟩⟩
    simp [scriptFailureMsg, String.data_append]
  · intro env interp st h
    have herr : get_config_from_interpreter env interp = .error (scriptFailureMsg scriptSrc) := by
      unfold get_config_from_interpreter
      rw [h]
      rfl
    refine ⟨herr, fun c hc => ?_⟩
    rw [herr] at hc
    exact Except.noConfusion hc

/-- An environment whose every spawn completes with a non-zero exit status
while printing a complete well-formed output. -/
def envExitOne : String → SpawnOutcome :=
  fun _ => .completed false (sampleOut.data.map Char.toNat)

/-- Witness for C8: a non-zero exit with complete well-formed stdout still
yields the script-failure error. -/
theorem C8_nonzero_exit_fails_witness :
    get_config_from_interpreter envExitOne "python" = .error (scriptFailureMsg scriptSrc) :=
  (C8_nonzero_exit_fails.2 envExitOne "python" (sampleOut.data.map Char.toNat) rfl).1

/-- Claim C6: discovery attempts exactly the candidates "python" then
"python3", in that order, and yields the successfully introspected-and-parsed
configurations in that order; a candidate on which the runner or the parser
fails is silently skipped and never perturbs the discovery of the other
candidate. -/
theorem C6_discovery_order :
    ∀ (env : String → SpawnOutcome) (c1 c2 : InterpreterConfig),
      candidateNames = ["python", "python3"] ∧
      (resultToOption (get_config_from_interpreter env "python") = some c1 →
        resultToOption (get_config_from_interpreter env "python3") = some c2 →
        find_interpreters env = [c1, c2]) ∧
      (resultToOption (get_config_from_interpreter env "python") = some c1 →
        resultToOption (get_config_from_interpreter env "python3") = none →
        find_interpreters env = [c1]) ∧
      (resultToOption (get_config_from_interpreter env "python") = none →
        resultToOption (get_config_from_interpreter env "python3") = some c2 →
        find_interpreters env = [c2]) ∧
      (resultToOption (get_config_from_interpreter env "python") = none →
        resultToOption (get_config_from_interpreter env "python3") = none →
        find_interpreters env = []) := by
  intro env c1 c2
  refine ⟨rfl, ?_, ?_, ?_, ?_⟩ <;> intro ha hb <;>
    simp [find_interpreters, candidateNames, List.filterMap_cons, ha, hb]

/-- An environment where "python" cannot be spawned but "python3" answers with
the sample output. -/
def envPy3Only : String → SpawnOutcome :=
  fun i =>
    if i = "python" then .ioError true "spawn error"
    else .completed true (sampleOut.data.map Char.toNat)

set_option maxRecDepth 8000 in
/-- Witness for C6: with "python" missing and "python3" well-behaved,
discovery skips the failure and yields exactly the configuration of
"python3". -/
theorem C6_discovery_order_witness : find_interpreters envPy3Only = [sampleConfig] :=
  (C6_discovery_order envPy3Only sampleConfig sampleConfig).2.2.2.1 rfl rfl

/-- Claim C7: the matching search returns the first configuration in candidate
order satisfying the predicate (or none when no candidate yields a satisfying
configuration), and — by the instrumented traversal, which records exactly the
candidates on which introspection is invoked — it never probes a candidate
after the first whose configuration satisfies the predicate. -/
theorem C7_first_match_short_circuits :
    ∀ (env : String → SpawnOutcome) (f : InterpreterConfig → Bool),
      find_interpreter_matching env f = (findMatchingRun env f candidateNames).1 ∧
      (∀ c, resultToOption (get_config_from_interpreter env "python") = some c →
        f c = true →
        findMatchingRun env f candidateNames = (some c, ["python"])) ∧
      (∀ c c2, resultToOption (get_config_from_interpreter env "python") = some c →
        f c = false →
        resultToOption (get_config_from_interpreter env "python3") = some c2 →
        f c2 = true →
        find_interpreter_matching env f = some c2) ∧
      (∀ c2, resultToOption (get_config_from_interpreter env "python") = none →
        resultToOption (get_config_from_interpreter env "python3") = some c2 →
        f c2 = true →
        find_interpreter_matching env f = some c2) ∧
      ((∀ c, resultToOption (get_config_from_interpreter env "python") = some c →
          f c = false) →
       (∀ c, resultToOption (get_config_from_interpreter env "python3") = some c →
          f c = false) →
        find_interpreter_matching env f = none) := by
  intro env f
  refine ⟨?_, ?_, ?_, ?_, ?_⟩
  · unfold find_interpreter_matching
    rw [findMatchingRun_fst]
    rfl
  · intro c hg hf
    simp [findMatchingRun, candidateNames, hg, hf]
  · intro c c2 hg hf hg2 hf2
    simp [find_interpreter_matching, find_interpreters, candidateNames,
      List.filterMap_cons, hg, hg2, List.find?, hf, hf2]
  · intro c2 hg hg2 hf2
    simp [find_interpreter_matching, find_interpreters, candidateNames,
      List.filterMap_cons, hg, hg2, List.find?, hf2]
  · intro h1 h2
    cases hg1 : resultToOption (get_config_from_interpreter env "python") with
    | none =>
      cases hg2 : resultToOption (get_config_from_interpreter env "python3") with
      | none =>
        simp [find_interpreter_matching, find_interpreters, candidateNames,
          List.filterMap_cons, hg1, hg2]
      | some c =>
        simp [find_interpreter_matching, find_interpreters, candidateNames,
          List.filterMap_cons, hg1, hg2, List.find?, h2 c hg2]
    | some c =>
      cases hg2 : resultToOption (get_config_from_interpreter env "python3") with
      | none =>
        simp [find_interpreter_matching, find_interpreters, candidateNames,
          List.filterMap_cons, hg1, hg2, List.find?, h1 c hg1]
      | some c2 =>
        simp [find_interpreter_matching, find_interpreters, candidateNames,
          List.filterMap_cons, hg1, hg2, List.find?, h1 c hg1, h2 c2 hg2]

/-- An environment where both candidates answer with the sample output. -/
def envBoth : String → SpawnOutcome :=
  fun _ => .completed true (sampleOut.data.map Char.toNat)

set_option maxRecDepth 8000 in
/-- Witness for C7: when "python" already satisfies the predicate, the
traversal stops there — the probed-candidate list is exactly ["python"], so
"python3" is never introspected. -/
theorem C7_first_match_short_circuits_witness :
    findMatchingRun envBoth (fun _ => true) candidateNames = (some sampleConfig, ["python"]) :=
  (C7_first_match_short_circuits envBoth (fun _ => true)).2.1 sampleConfig rfl rfl
